import Mathlib

/-!
Shallow embedding of the FluxTotem payment-orchestration backend
(`src/server.js`): the order/payment data model, the input normalizers,
and the four state-changing handlers of the reconciliation core
(`POST /orders`, `POST /payments/point`, `POST /payments/pix`,
`POST /webhooks/mercadopago`), together with theorems about the
reconciliation state machine they induce.

Modelling conventions:
- JavaScript values reaching a handler are modelled by `JSVal`; a JS number
  is an `Option ℚ` whose `none` stands for `NaN` and `±Infinity` (the three
  non-finite doubles), so `Number(x)` coercion results are `Option ℚ`.
- MySQL tables become Lean lists inside `DBState`; `AUTO_INCREMENT` ids are
  the `nextOrderId` / `nextPaymentId` counters.
- An outbound HTTP call to the provider is an input of the handler: `none`
  models a thrown `axios` error (non-2xx or timeout), `some r` a 2xx
  response body, of which only the fields the handler reads are kept.
-/

namespace FluxTotem

/-- A JavaScript request-body value, to the extent the handlers inspect one:
a string, a number (`none` inside models a non-finite double), `null`, or
`undefined`. -/
inductive JSVal where
  | str (s : String)
  | num (q : Option ℚ)
  | null
  | undef
deriving DecidableEq, Repr

/-- JS `a || b` for two optional strings, where `none` models
`undefined`/`null`: the result is `b` when `a` is absent or the empty
string (the falsy strings), else `a`. -/
def strOr (a b : Option String) : Option String :=
  match a with
  | some s => if s = "" then b else some s
  | none => b

/-- JS `String(a || d)` for an optional string `a` and a default `d`:
the default replaces an absent or empty value. -/
def strOrDefault (a : Option String) (d : String) : String :=
  match a with
  | some s => if s = "" then d else s
  | none => d

/-- Truthiness of an optional JS string: present and nonempty. -/
def jsTruthyStr : Option String → Bool
  | some s => s ≠ ""
  | none => false

/-! ## Amount and reference normalizers (src/server.js lines 109-122) -/

/-- The integer number of cents obtained by rounding `100 * n` half away
from zero for a positive rational `n`: this is the rounding
`Number.prototype.toFixed(2)` performs (ECMA-262: the closest two-decimal
value, ties toward the larger). Stated on the numerator and denominator so
that the kernel can evaluate it. -/
def cents (n : ℚ) : ℕ :=
  (n.num.toNat * 200 + n.den) / (2 * n.den)

/-- ECMA-262 `Number::toString` (radix 10) for a natural number of 22 or
more digits, which is the only shape reaching it from `toFixed2`: the
exponential form `d.dddde+K` — the significant digits (trailing zeros
stripped) with a dot after the first one when more than one remains, then
`e+` and the decimal exponent. -/
def jsLargeToString (m : ℕ) : String :=
  let ds := Nat.toDigits 10 m
  let sig := (ds.reverse.dropWhile (fun c => c = '0')).reverse
  match sig with
  | [] => "0"
  | [d] => String.mk [d] ++ "e+" ++ Nat.repr (ds.length - 1)
  | d :: rest => String.mk [d] ++ "." ++ String.mk rest ++ "e+" ++ Nat.repr (ds.length - 1)

/-- JS `n.toFixed(2)` for a positive rational `n`. Following ECMA-262
(`Number.prototype.toFixed`, step 4): an argument of `10 ^ 21` or more is
rendered with `Number::toString`, i.e. in exponential notation — every
IEEE double that large is an integer, so the numerator is what gets
printed (non-integer rationals in that range model no double). Below the
threshold the result is the integer part, a dot, and exactly two
fractional digit characters. -/
def toFixed2 (n : ℚ) : String :=
  if 1000000000000000000000 ≤ n then jsLargeToString n.num.toNat
  else
    let c : ℕ := cents n
    Nat.repr (c / 100) ++ "." ++ String.mk [Nat.digitChar (c / 10 % 10), Nat.digitChar (c % 10)]

/-- `toAmountString` (src/server.js lines 109-113): the input is the result
of `Number(v)` (`none` = non-finite, covering non-numeric input, which
coerces to `NaN`); the function throws on non-finite or non-positive input
(modelled as `none`) and otherwise returns `n.toFixed(2)`. -/
def toAmountString (v : Option ℚ) : Option String :=
  match v with
  | none => none
  | some n => if n ≤ 0 then none else some (toFixed2 n)

/-- The number of characters after the last dot of `s`, or `none` when `s`
has no dot: the count of fractional digits of a decimal numeral string. -/
def fracDigits (s : String) : Option ℕ :=
  if '.' ∈ s.data then
    some ((s.data.reverse.takeWhile (fun c => c ≠ '.')).length)
  else none

/-- The characters stripped by JS `String.prototype.trim`: the ECMA-262
WhiteSpace set (TAB, VT, FF, SP, NBSP, ZWNBSP/BOM and the Unicode
space-separator category Zs: U+1680, U+2000..U+200A, U+202F, U+205F,
U+3000) together with the LineTerminator set (LF, CR, U+2028, U+2029). -/
def jsWhitespace (c : Char) : Bool :=
  c = '\t' ∨ c = '\n' ∨ c = '\x0b' ∨ c = '\x0c' ∨ c = '\r' ∨ c = ' ' ∨
  c = '\u00A0' ∨ c = '\u1680' ∨ ('\u2000' ≤ c ∧ c ≤ '\u200A') ∨
  c = '\u2028' ∨ c = '\u2029' ∨ c = '\u202F' ∨ c = '\u205F' ∨ c = '\u3000' ∨
  c = '\uFEFF'

/-- JS `s.trim()`: drop leading and trailing whitespace. -/
def jsTrim (s : String) : String :=
  String.mk (((s.data.dropWhile jsWhitespace).reverse.dropWhile jsWhitespace).reverse)

/-- Membership in the character class `[A-Za-z0-9_-]` of the validation
regex. -/
def refAllowedChar (c : Char) : Bool :=
  ('A' ≤ c ∧ c ≤ 'Z') ∨ ('a' ≤ c ∧ c ≤ 'z') ∨ ('0' ≤ c ∧ c ≤ '9') ∨ c = '_' ∨ c = '-'

/-- `safeExternalRef` (src/server.js lines 115-122): `null` for non-string
input; otherwise trim, then require length between 1 and 64 and a full
match of `^[A-Za-z0-9_-]+$` (modelled as: nonempty and every character in
the class), returning the trimmed string. -/
def safeExternalRef (v : JSVal) : Option String :=
  match v with
  | JSVal.str s =>
    let t := jsTrim s
    if t.length < 1 ∨ t.length > 64 then none
    else if ¬(t.length ≥ 1 ∧ t.data.all refAllowedChar) then none
    else some t
  | _ => none

/-! ## Data model (tables created in src/server.js lines 186-212) -/

/-- A row of the `orders` table. -/
structure Order where
  id : ℕ
  external_ref : String
  status : String
  amount : ℚ
deriving DecidableEq, Repr

/-- A row of the `payments` table. -/
structure PaymentAttempt where
  id : ℕ
  order_id : ℕ
  provider : String
  mp_order_id : String
  mp_payment_id : String
  status : String
  terminal_id : Option String
  raw_json : String
deriving DecidableEq, Repr

/-- The persistent store: both tables plus the two auto-increment
counters. -/
structure DBState where
  orders : List Order
  payments : List PaymentAttempt
  nextOrderId : ℕ
  nextPaymentId : ℕ
deriving DecidableEq, Repr

/-- The empty database right after `POST /db/init` (auto-increment starts
at 1). -/
def initialState : DBState :=
  { orders := [], payments := [], nextOrderId := 1, nextPaymentId := 1 }

/-- `SELECT * FROM orders WHERE id = ?` taking the first row. -/
def findOrder (st : DBState) (oid : ℕ) : Option Order :=
  st.orders.find? (fun o => o.id = oid)

/-- `SELECT * FROM orders WHERE external_ref = ?` taking the first row. -/
def findOrderByRef (st : DBState) (ref : String) : Option Order :=
  st.orders.find? (fun o => o.external_ref = ref)

/-- `UPDATE orders SET status = ? WHERE id = ?`. -/
def setOrderStatus (st : DBState) (oid : ℕ) (status : String) : DBState :=
  { st with orders := st.orders.map (fun o => if o.id = oid then { o with status := status } else o) }

/-- `UPDATE payments SET status = ?, raw_json = ? WHERE mp_order_id = ?`. -/
def updatePaymentsByMpOrderId (st : DBState) (mpOrderId status raw : String) : DBState :=
  { st with payments := st.payments.map (fun p =>
      if p.mp_order_id = mpOrderId then { p with status := status, raw_json := raw } else p) }

/-- The status of the order with id `oid`, when one exists. -/
def orderStatus (st : DBState) (oid : ℕ) : Option String :=
  (findOrder st oid).map (fun o => o.status)

/-! ## POST /orders (src/server.js lines 224-253) -/

/-- Outcome of `POST /orders`: success with the inserted id, 400 on failed
validation, 409 on `ER_DUP_ENTRY` from the unique key on `external_ref`,
500 on any other MySQL error. -/
inductive OrdersResult where
  | ok (orderId : ℕ)
  | validationError
  | duplicateReference
  | persistenceError
deriving DecidableEq, Repr

/-- The `POST /orders` handler. `externalRef` is the raw body field;
`amount` is the body field with the outer `Option` modelling
absent-or-`null` (the `amount == null` check) and the inner `Option ℚ`
the result of `Number(amount)`. A healthy pure store never produces
`persistenceError`; the constructor exists because the handler
distinguishes it from `duplicateReference`. -/
def ordersPost (st : DBState) (externalRef : JSVal) (amount : Option (Option ℚ)) :
    DBState × OrdersResult :=
  match safeExternalRef externalRef, amount with
  | none, _ => (st, OrdersResult.validationError)
  | some _, none => (st, OrdersResult.validationError)
  | some ref, some amt =>
    match amt with
    | none => (st, OrdersResult.validationError)
    | some q =>
      if q ≤ 0 then (st, OrdersResult.validationError)
      else if st.orders.any (fun o => o.external_ref = ref) then
        (st, OrdersResult.duplicateReference)
      else
        (({ st with
            orders := st.orders ++
              [{ id := st.nextOrderId, external_ref := ref, status := "created", amount := q }],
            nextOrderId := st.nextOrderId + 1 } : DBState),
         OrdersResult.ok st.nextOrderId)

/-! ## POST /payments/point (src/server.js lines 330-385) -/

/-- The fields of the provider response to `POST /v1/orders` that the
handler reads: `r.data.id`, `r.data.transactions.payments[0].id`,
`r.data.status`, and the whole body (kept as an opaque string for
`raw_json`). -/
structure MPPointResp where
  id : Option String
  firstPaymentId : Option String
  status : Option String
  raw : String
deriving DecidableEq, Repr

/-- Outcome of `POST /payments/point`. -/
inductive PointResult where
  | ok (mp_order_id mp_payment_id status : String)
  | badRequest
  | notFound
  | gatewayError
deriving DecidableEq, Repr

/-- The `POST /payments/point` handler. `orderId` is the coerced body id
(the handler rejects non-positive ids; non-numeric and fractional ids
cannot match a stored row and are subsumed by `badRequest`/`notFound`);
`terminalId` is the raw body field with JS truthiness; `gw` is the
provider call, `none` modelling a thrown `axios` error. A throw from
`toAmountString` lands in the same catch block as a gateway failure. -/
def paymentsPoint (st : DBState) (orderId : ℕ) (terminalId : Option String)
    (gw : Option MPPointResp) : DBState × PointResult :=
  if orderId = 0 ∨ ¬ jsTruthyStr terminalId then (st, PointResult.badRequest)
  else
    match findOrder st orderId with
    | none => (st, PointResult.notFound)
    | some ord =>
      match toAmountString (some ord.amount) with
      | none => (st, PointResult.gatewayError)
      | some _ =>
        match gw with
        | none => (st, PointResult.gatewayError)
        | some r =>
          let mpOrderId := strOrDefault r.id ""
          let mpPaymentId := strOrDefault r.firstPaymentId ""
          let status := strOrDefault r.status "created"
          let st1 : DBState :=
            { st with
              payments := st.payments ++
                [{ id := st.nextPaymentId, order_id := orderId,
                   provider := "mp_point_v1_orders", mp_order_id := mpOrderId,
                   mp_payment_id := mpPaymentId, status := status,
                   terminal_id := some (terminalId.getD ""), raw_json := r.raw }],
              nextPaymentId := st.nextPaymentId + 1 }
          (setOrderStatus st1 orderId "awaiting_payment",
           PointResult.ok mpOrderId mpPaymentId status)

/-! ## POST /payments/pix (src/server.js lines 431-481) -/

/-- The fields of the provider response to `POST /v1/payments` that the
handler reads. -/
structure MPPixResp where
  id : Option String
  status : Option String
  raw : String
deriving DecidableEq, Repr

/-- Outcome of `POST /payments/pix`. -/
inductive PixResult where
  | ok (paymentId status : String)
  | badRequest
  | notFound
  | gatewayError
deriving DecidableEq, Repr

/-- The `POST /payments/pix` handler. Note that the insert stores the
provider payment id in both the `mp_order_id` and the `mp_payment_id`
column. -/
def paymentsPix (st : DBState) (orderId : ℕ) (gw : Option MPPixResp) :
    DBState × PixResult :=
  if orderId = 0 then (st, PixResult.badRequest)
  else
    match findOrder st orderId with
    | none => (st, PixResult.notFound)
    | some _ =>
      match gw with
      | none => (st, PixResult.gatewayError)
      | some r =>
        let paymentId := strOrDefault r.id ""
        let status := strOrDefault r.status "created"
        let st1 : DBState :=
          { st with
            payments := st.payments ++
              [{ id := st.nextPaymentId, order_id := orderId, provider := "pix",
                 mp_order_id := paymentId, mp_payment_id := paymentId, status := status,
                 terminal_id := none, raw_json := r.raw }],
            nextPaymentId := st.nextPaymentId + 1 }
        (setOrderStatus st1 orderId "awaiting_payment", PixResult.ok paymentId status)

/-! ## POST /webhooks/mercadopago (src/server.js lines 490-539) -/

/-- The fetched payment detail (`GET /v1/payments/:id`) as the webhook
handler reads it: `payment.status`, `payment.external_reference`, and the
whole body for `raw_json`. -/
structure MPPaymentDetail where
  status : Option String
  external_reference : Option String
  raw : String
deriving DecidableEq, Repr

/-- An incoming webhook request: the optional `x-webhook-secret` header and
the body fields the handler reads (`type`, `topic`, `data.id`, `id`), each
`none` when absent. -/
structure WebhookReq where
  headerSecret : Option String
  bodyType : Option String
  bodyTopic : Option String
  dataId : Option String
  topLevelId : Option String
deriving DecidableEq, Repr

/-- JS `s.toLowerCase()` on the provider status vocabulary (ASCII):
lower-case every character. Defined by structural recursion over the
character list so that it evaluates inside the kernel. -/
def jsToLower (s : String) : String :=
  String.mk (s.data.map Char.toLower)

/-- The body of the webhook handler after the secret check: resolve the
event type (`body.type || body.topic`) and payment id
(`body.data.id || body.id`); discard the event when the id is falsy; for
`payment`/`payments` events fetch the payment (`none` = thrown fetch,
swallowed), update the `payments` rows matched on `mp_order_id`, and when
the fetched status is `approved` (case-insensitively) and an external
reference is present, set the matching order (truthy id only) to
`paid`. -/
def webhookBody (st : DBState) (req : WebhookReq) (fetch : Option MPPaymentDetail) : DBState :=
  let type_ := strOr req.bodyType req.bodyTopic
  let dataId := strOr req.dataId req.topLevelId
  if ¬ jsTruthyStr dataId then st
  else
    let did := dataId.getD ""
    if type_ = some "payment" ∨ type_ = some "payments" then
      match fetch with
      | none => st
      | some payment =>
        let status := strOrDefault payment.status "updated"
        let st1 := updatePaymentsByMpOrderId st did status payment.raw
        if jsToLower status = "approved" ∧ jsTruthyStr payment.external_reference then
          match findOrderByRef st1 (payment.external_reference.getD "") with
          | some ord => if ord.id ≠ 0 then setOrderStatus st1 ord.id "paid" else st1
          | none => st1
        else st1
    else st

/-- The `POST /webhooks/mercadopago` handler. The 200 acknowledgment is
sent unconditionally before any processing; with a truthy configured
secret `cfgSecret`, a missing or different `x-webhook-secret` header drops
the event silently. The returned number is the HTTP status of the
acknowledgment. -/
def webhooksMercadopago (cfgSecret : Option String) (st : DBState) (req : WebhookReq)
    (fetch : Option MPPaymentDetail) : DBState × ℕ :=
  (if jsTruthyStr cfgSecret ∧ req.headerSecret ≠ cfgSecret then st
   else webhookBody st req fetch, 200)

/-! ## The reconciliation core as a state machine -/

/-- One operation of the reconciliation core, carrying the request data
and the provider responses it consumes. -/
inductive Op where
  | createOrder (externalRef : JSVal) (amount : Option (Option ℚ))
  | point (orderId : ℕ) (terminalId : Option String) (gw : Option MPPointResp)
  | pix (orderId : ℕ) (gw : Option MPPixResp)
  | webhook (req : WebhookReq) (fetch : Option MPPaymentDetail)
deriving DecidableEq, Repr

/-- The state transition of one operation. -/
def step (cfgSecret : Option String) (st : DBState) : Op → DBState
  | Op.createOrder r a => (ordersPost st r a).1
  | Op.point oid tid gw => (paymentsPoint st oid tid gw).1
  | Op.pix oid gw => (paymentsPix st oid gw).1
  | Op.webhook req fetch => (webhooksMercadopago cfgSecret st req fetch).1

/-- Run a sequence of operations of the core. -/
def runOps (cfgSecret : Option String) (st : DBState) (ops : List Op) : DBState :=
  ops.foldl (step cfgSecret) st

/-- The payment-branch of `webhookBody` (the code after the provider fetch
succeeded), abstracted over the resolved payment id `did`: update the
`payments` rows matched on `mp_order_id` and, for an approved payment with
an external reference, set the referenced order to `paid`. `webhookBody`
reduces to this on its fetch-success path; having it as a function keeps
the webhook theorems readable. -/
def webhookPaymentStep (st : DBState) (payment : MPPaymentDetail) (did : String) : DBState :=
  let status := strOrDefault payment.status "updated"
  let st1 := updatePaymentsByMpOrderId st did status payment.raw
  if jsToLower status = "approved" ∧ jsTruthyStr payment.external_reference then
    match findOrderByRef st1 (payment.external_reference.getD "") with
    | some ord => if ord.id ≠ 0 then setOrderStatus st1 ord.id "paid" else st1
    | none => st1
  else st1

/-! ## Concrete fixtures used by witnesses and counterexamples -/

/-- A store holding one order `ORD-1` of amount 19 that is already
`paid`. -/
def stPaid : DBState :=
  { orders := [{ id := 1, external_ref := "ORD-1", status := "paid", amount := 19 }],
    payments := [], nextOrderId := 2, nextPaymentId := 1 }

/-- A store holding one order `ORD-1` of amount 19 in status
`awaiting_payment` together with one point attempt whose provider order id
`O1` differs from its provider payment id `P1`. -/
def stPointAttempt : DBState :=
  { orders := [{ id := 1, external_ref := "ORD-1", status := "awaiting_payment", amount := 19 }],
    payments := [{ id := 1, order_id := 1, provider := "mp_point_v1_orders",
                   mp_order_id := "O1", mp_payment_id := "P1", status := "created",
                   terminal_id := some "T1", raw_json := "RAW0" }],
    nextOrderId := 2, nextPaymentId := 2 }

/-- A provider response to a point order creation. -/
def pointResp : MPPointResp :=
  { id := some "MPO-1", firstPaymentId := some "MPP-1", status := some "created", raw := "RAW0" }

/-- A provider response to a point order creation in which the provider
reports the same identifier as order id and as first payment id. -/
def pointRespSameIds : MPPointResp :=
  { id := some "X", firstPaymentId := some "X", status := some "created", raw := "RAW0" }

/-- A provider response to a pix payment creation. -/
def pixResp : MPPixResp :=
  { id := some "PAY-1", status := some "pending", raw := "RAW1" }

/-- A webhook request naming payment `PAY-1`, without a secret header. -/
def payReq : WebhookReq :=
  { headerSecret := none, bodyType := some "payment", bodyTopic := none,
    dataId := some "PAY-1", topLevelId := none }

/-- A webhook request naming payment `P1`, without a secret header. -/
def payReqP1 : WebhookReq :=
  { headerSecret := none, bodyType := some "payment", bodyTopic := none,
    dataId := some "P1", topLevelId := none }

/-- A fetched payment detail: approved, referencing `ORD-1`. -/
def approvedFetch : MPPaymentDetail :=
  { status := some "approved", external_reference := some "ORD-1", raw := "RAW2" }

/-- A fetched payment detail: cancelled, with no external reference. -/
def cancelledFetch : MPPaymentDetail :=
  { status := some "cancelled", external_reference := none, raw := "RAW3" }

/-! ## Store lemmas -/

theorem orders_updatePayments (st : DBState) (d s r : String) :
    (updatePaymentsByMpOrderId st d s r).orders = st.orders := rfl

theorem payments_setOrderStatus (st : DBState) (oid : ℕ) (s : String) :
    (setOrderStatus st oid s).payments = st.payments := rfl

theorem findOrder_updatePayments (st : DBState) (d s r : String) (oid : ℕ) :
    findOrder (updatePaymentsByMpOrderId st d s r) oid = findOrder st oid := rfl

theorem findOrderByRef_updatePayments (st : DBState) (d s r ref : String) :
    findOrderByRef (updatePaymentsByMpOrderId st d s r) ref = findOrderByRef st ref := rfl

theorem findOrder_setOrderStatus (st : DBState) (oid2 oid : ℕ) (s : String) :
    findOrder (setOrderStatus st oid2 s) oid =
      (findOrder st oid).map (fun o => if o.id = oid2 then { o with status := s } else o) := by
  unfold findOrder setOrderStatus
  rw [List.find?_map]
  have hfun : ((fun o : Order => decide (o.id = oid)) ∘ fun o : Order =>
      if o.id = oid2 then { o with status := s } else o) =
      fun o : Order => decide (o.id = oid) := by
    funext o
    by_cases h : o.id = oid2 <;> simp [h]
  rw [hfun]

theorem findOrderByRef_setOrderStatus (st : DBState) (oid2 : ℕ) (s ref : String) :
    findOrderByRef (setOrderStatus st oid2 s) ref =
      (findOrderByRef st ref).map (fun o => if o.id = oid2 then { o with status := s } else o) := by
  unfold findOrderByRef setOrderStatus
  rw [List.find?_map]
  have hfun : ((fun o : Order => decide (o.external_ref = ref)) ∘ fun o : Order =>
      if o.id = oid2 then { o with status := s } else o) =
      fun o : Order => decide (o.external_ref = ref) := by
    funext o
    by_cases h : o.id = oid2 <;> simp [h]
  rw [hfun]

theorem updatePayments_idem (st : DBState) (d s r : String) :
    updatePaymentsByMpOrderId (updatePaymentsByMpOrderId st d s r) d s r =
      updatePaymentsByMpOrderId st d s r := by
  unfold updatePaymentsByMpOrderId
  simp only [List.map_map]
  have hfun : ((fun p : PaymentAttempt =>
      if p.mp_order_id = d then { p with status := s, raw_json := r } else p) ∘
      fun p : PaymentAttempt =>
      if p.mp_order_id = d then { p with status := s, raw_json := r } else p) =
      fun p : PaymentAttempt =>
      if p.mp_order_id = d then { p with status := s, raw_json := r } else p := by
    funext p
    by_cases h : p.mp_order_id = d <;> simp [h]
  rw [hfun]

theorem setOrderStatus_idem (st : DBState) (oid : ℕ) (s : String) :
    setOrderStatus (setOrderStatus st oid s) oid s = setOrderStatus st oid s := by
  unfold setOrderStatus
  simp only [List.map_map]
  have hfun : ((fun o : Order => if o.id = oid then { o with status := s } else o) ∘
      fun o : Order => if o.id = oid then { o with status := s } else o) =
      fun o : Order => if o.id = oid then { o with status := s } else o := by
    funext o
    by_cases h : o.id = oid <;> simp [h]
  rw [hfun]

theorem updatePayments_setOrderStatus_comm (st : DBState) (oid : ℕ) (s d s2 r : String) :
    updatePaymentsByMpOrderId (setOrderStatus st oid s) d s2 r =
      setOrderStatus (updatePaymentsByMpOrderId st d s2 r) oid s := rfl

theorem orderStatus_setOrderStatus_self (st : DBState) (oid : ℕ) (s : String)
    (h : ∃ o ∈ st.orders, o.id = oid) :
    orderStatus (setOrderStatus st oid s) oid = some s := by
  obtain ⟨o, ho, hoid⟩ := h
  have hsome : (findOrder st oid).isSome := by
    unfold findOrder
    exact List.find?_isSome.mpr ⟨o, ho, by simp [hoid]⟩
  obtain ⟨o0, ho0⟩ := Option.isSome_iff_exists.mp hsome
  have hid : o0.id = oid := by simpa using List.find?_some ho0
  unfold orderStatus
  rw [findOrder_setOrderStatus, ho0]
  simp [hid]

theorem orderStatus_setOrderStatus_or (st : DBState) (oid2 oid : ℕ) (s s0 : String)
    (h : orderStatus st oid = some s0) :
    orderStatus (setOrderStatus st oid2 s) oid = some s0 ∨
    orderStatus (setOrderStatus st oid2 s) oid = some s := by
  unfold orderStatus at h ⊢
  rw [findOrder_setOrderStatus]
  obtain ⟨o, ho, hos⟩ := Option.map_eq_some'.mp h
  rw [ho]
  by_cases hid : o.id = oid2
  · right; simp [hid]
  · left; simp [hid, hos]

theorem orderStatus_updatePayments (st : DBState) (d s r : String) (oid : ℕ) :
    orderStatus (updatePaymentsByMpOrderId st d s r) oid = orderStatus st oid := rfl

/-! ## Webhook shape lemmas -/

theorem webhookBody_payment (st : DBState) (req : WebhookReq) (payment : MPPaymentDetail)
    (did : String)
    (hdid : strOr req.dataId req.topLevelId = some did) (hne : did ≠ "")
    (htype : strOr req.bodyType req.bodyTopic = some "payment" ∨
      strOr req.bodyType req.bodyTopic = some "payments") :
    webhookBody st req (some payment) = webhookPaymentStep st payment did := by
  have htr : jsTruthyStr (some did) = true := by simp [jsTruthyStr, hne]
  rcases htype with h | h <;>
    simp [webhookBody, webhookPaymentStep, hdid, htr, h]

theorem webhookBody_state_cases (st : DBState) (req : WebhookReq)
    (fetch : Option MPPaymentDetail) :
    webhookBody st req fetch = st ∨
    ∃ payment did, fetch = some payment ∧
      webhookBody st req fetch = webhookPaymentStep st payment did := by
  unfold webhookBody
  by_cases hdid : ¬ jsTruthyStr (strOr req.dataId req.topLevelId)
  · left; rw [if_pos hdid]
  · rw [if_neg hdid]
    by_cases htype : strOr req.bodyType req.bodyTopic = some "payment" ∨
        strOr req.bodyType req.bodyTopic = some "payments"
    · rw [if_pos htype]
      cases fetch with
      | none => left; rfl
      | some payment =>
        right
        exact ⟨payment, (strOr req.dataId req.topLevelId).getD "", rfl, rfl⟩
    · left; rw [if_neg htype]

theorem webhooksMercadopago_state_cases (cfg : Option String) (st : DBState)
    (req : WebhookReq) (fetch : Option MPPaymentDetail) :
    (webhooksMercadopago cfg st req fetch).1 = st ∨
    ∃ payment did, fetch = some payment ∧
      (webhooksMercadopago cfg st req fetch).1 = webhookPaymentStep st payment did := by
  unfold webhooksMercadopago
  by_cases hsec : jsTruthyStr cfg ∧ req.headerSecret ≠ cfg
  · left; rw [if_pos hsec]
  · rw [if_neg hsec]
    exact webhookBody_state_cases st req fetch

theorem webhookPaymentStep_preserves_paid (st : DBState) (payment : MPPaymentDetail)
    (did : String) (oid : ℕ) (h : orderStatus st oid = some "paid") :
    orderStatus (webhookPaymentStep st payment did) oid = some "paid" := by
  unfold webhookPaymentStep
  have h1 : orderStatus (updatePaymentsByMpOrderId st did
      (strOrDefault payment.status "updated") payment.raw) oid = some "paid" := by
    rw [orderStatus_updatePayments]; exact h
  by_cases hap : jsToLower (strOrDefault payment.status "updated") = "approved" ∧
      jsTruthyStr payment.external_reference
  · rw [if_pos hap]
    cases hfind : findOrderByRef (updatePaymentsByMpOrderId st did
        (strOrDefault payment.status "updated") payment.raw)
        (payment.external_reference.getD "") with
    | none => simpa using h1
    | some ord =>
      dsimp only
      by_cases hz : ord.id ≠ 0
      · rw [if_pos hz]
        rcases orderStatus_setOrderStatus_or _ ord.id oid "paid" "paid" h1 with h2 | h2 <;>
          exact h2
      · rw [if_neg hz]
        exact h1
  · rw [if_neg hap]
    exact h1

/-! ## Claim theorems -/

/-- C8: for every webhook event body from which no payment identifier can
be resolved (neither `data.id` nor the top-level `id` is a truthy string),
the handler mutates neither the orders nor the payments store and raises
no error: it returns the unchanged state with the 200 acknowledgment. -/
theorem webhook_unresolved_id_noop (cfg : Option String) (st : DBState) (req : WebhookReq)
    (fetch : Option MPPaymentDetail)
    (h : jsTruthyStr (strOr req.dataId req.topLevelId) = false) :
    webhooksMercadopago cfg st req fetch = (st, 200) := by
  unfold webhooksMercadopago
  by_cases hsec : jsTruthyStr cfg ∧ req.headerSecret ≠ cfg
  · rw [if_pos hsec]
  · rw [if_neg hsec]
    simp [webhookBody, h]

/-- Witness for C8: a webhook body with an empty top-level `id` and no
`data.id` is discarded without touching the fresh store. -/
theorem webhook_unresolved_id_noop_witness :
    webhooksMercadopago none initialState
      { headerSecret := none, bodyType := some "payment", bodyTopic := none,
        dataId := none, topLevelId := some "" } none = (initialState, 200) :=
  webhook_unresolved_id_noop none initialState
    { headerSecret := none, bodyType := some "payment", bodyTopic := none,
      dataId := none, topLevelId := some "" } none (by decide)

/-- C9: whenever a webhook shared secret is configured (a truthy
`MP_WEBHOOK_SECRET`) and the request's `x-webhook-secret` header is missing
or different, the handler performs no reconciliation and no store mutation,
while the request has still been acknowledged with the 200 response. -/
theorem webhook_secret_mismatch_noop (cfg : Option String) (st : DBState) (req : WebhookReq)
    (fetch : Option MPPaymentDetail) (s : String)
    (hcfg : cfg = some s) (hs : s ≠ "") (hmiss : req.headerSecret ≠ some s) :
    webhooksMercadopago cfg st req fetch = (st, 200) := by
  subst hcfg
  unfold webhooksMercadopago
  rw [if_pos ⟨by simp [jsTruthyStr, hs], by simpa using hmiss⟩]

/-- Witness for C9: with secret `"sec"` configured, a request without the
header is dropped even though it names a payment and the fetch would have
approved it. -/
theorem webhook_secret_mismatch_noop_witness :
    webhooksMercadopago (some "sec") initialState
      { headerSecret := none, bodyType := some "payment", bodyTopic := none,
        dataId := some "PAY-1", topLevelId := none }
      (some { status := some "approved", external_reference := some "ORD-1", raw := "RAW" }) =
      (initialState, 200) :=
  webhook_secret_mismatch_noop (some "sec") initialState
    { headerSecret := none, bodyType := some "payment", bodyTopic := none,
      dataId := some "PAY-1", topLevelId := none }
    (some { status := some "approved", external_reference := some "ORD-1", raw := "RAW" })
    "sec" rfl (by decide) (by decide)

/-- C5: for every valid `(ref, amount)` pair — a reference the normalizer
accepts as `r` not yet present in the store, and a positive amount —
calling the order-creation handler twice with the same reference yields
exactly one success and one `duplicateReference` outcome, and
`duplicateReference` is a different outcome from the generic
`persistenceError`. -/
theorem createOrder_duplicate_reference (st : DBState) (v : JSVal) (q : ℚ) (r : String)
    (href : safeExternalRef v = some r) (hq : 0 < q)
    (hfresh : ∀ o ∈ st.orders, o.external_ref ≠ r) :
    (ordersPost st v (some (some q))).2 = OrdersResult.ok st.nextOrderId ∧
    (ordersPost (ordersPost st v (some (some q))).1 v (some (some q))).2 =
      OrdersResult.duplicateReference ∧
    OrdersResult.duplicateReference ≠ OrdersResult.persistenceError := by
  have hq' : ¬ q ≤ 0 := not_le.mpr hq
  have hany : st.orders.any (fun o => o.external_ref = r) = false := by
    rw [List.any_eq_false]
    intro o ho
    simpa using hfresh o ho
  have h1 : ordersPost st v (some (some q)) =
      ({ st with
          orders := st.orders ++
            [{ id := st.nextOrderId, external_ref := r, status := "created", amount := q }],
          nextOrderId := st.nextOrderId + 1 }, OrdersResult.ok st.nextOrderId) := by
    unfold ordersPost
    rw [href]
    simp [hq', hany]
  refine ⟨by rw [h1], ?_, by simp⟩
  rw [h1]
  unfold ordersPost
  rw [href]
  have hany2 : (st.orders ++
      [{ id := st.nextOrderId, external_ref := r, status := "created",
         amount := q : Order }]).any (fun o => o.external_ref = r) = true := by
    rw [List.any_eq_true]
    exact ⟨{ id := st.nextOrderId, external_ref := r, status := "created", amount := q },
      by simp, by simp⟩
  simp [hq', hany2]

/-- Witness for C5: creating order `ORD-1` for amount 19 twice on the
empty store succeeds once and then reports the duplicate reference. -/
theorem createOrder_duplicate_reference_witness :
    (ordersPost initialState (JSVal.str "ORD-1") (some (some 19))).2 =
      OrdersResult.ok initialState.nextOrderId ∧
    (ordersPost (ordersPost initialState (JSVal.str "ORD-1") (some (some 19))).1
      (JSVal.str "ORD-1") (some (some 19))).2 = OrdersResult.duplicateReference ∧
    OrdersResult.duplicateReference ≠ OrdersResult.persistenceError :=
  createOrder_duplicate_reference initialState (JSVal.str "ORD-1") 19 "ORD-1"
    (by decide) (by decide) (by decide)

theorem one_le_length_iff_ne_empty (s : String) : 1 ≤ s.length ↔ s ≠ "" := by
  constructor
  · intro h hcon
    subst hcon
    simp at h
  · intro h
    rcases Nat.eq_zero_or_pos s.length with h0 | h1
    · exfalso
      apply h
      apply String.ext
      simpa using List.length_eq_zero.mp h0
    · exact h1

/-- C7: the reference normalizer first trims surrounding whitespace and
then accepts exactly the string inputs whose trimmed form is nonempty, at
most 64 characters long, and made only of characters in `[A-Za-z0-9_-]`,
returning the trimmed string; everything else — non-strings included — is
rejected. -/
theorem safeExternalRef_spec :
    ∀ (v : JSVal) (r : String),
      safeExternalRef v = some r ↔
        ∃ s, v = JSVal.str s ∧ r = jsTrim s ∧ r ≠ "" ∧ r.length ≤ 64 ∧
          r.data.all refAllowedChar = true := by
  intro v r
  cases v with
  | str s =>
    simp only [safeExternalRef]
    constructor
    · intro h
      by_cases h1 : (jsTrim s).length < 1 ∨ (jsTrim s).length > 64
      · rw [if_pos h1] at h
        exact absurd h (by simp)
      · rw [if_neg h1] at h
        by_cases h2 : ¬((jsTrim s).length ≥ 1 ∧ (jsTrim s).data.all refAllowedChar)
        · rw [if_pos h2] at h
          exact absurd h (by simp)
        · rw [if_neg h2] at h
          have hr : jsTrim s = r := by simpa using h
          push_neg at h1
          push_neg at h2
          subst hr
          exact ⟨s, rfl, rfl, (one_le_length_iff_ne_empty _).mp h2.1, h1.2, by
            simpa using h2.2⟩
    · rintro ⟨s0, hs0, rfl, hne, hlen, hall⟩
      have hss : s = s0 := by injection hs0
      subst hss
      have hge := (one_le_length_iff_ne_empty _).mpr hne
      rw [if_neg (by omega)]
      rw [if_neg (by push_neg; exact ⟨hge, by simpa using hall⟩)]
  | num q =>
    simp [safeExternalRef]
  | null =>
    simp [safeExternalRef]
  | undef =>
    simp [safeExternalRef]

theorem digitChar_ne_dot (k : ℕ) (h : k < 10) : Nat.digitChar k ≠ '.' := by
  interval_cases k <;> decide

theorem toFixed2_data (n : ℚ) (h : n < 1000000000000000000000) :
    (toFixed2 n).data = (Nat.repr (cents n / 100)).data ++
      '.' :: [Nat.digitChar (cents n / 10 % 10), Nat.digitChar (cents n % 10)] := by
  unfold toFixed2
  rw [if_neg (not_le.mpr h)]
  simp [String.data_append]

theorem fracDigits_toFixed2 (n : ℚ) (h : n < 1000000000000000000000) :
    fracDigits (toFixed2 n) = some 2 := by
  have hd1 : Nat.digitChar (cents n / 10 % 10) ≠ '.' :=
    digitChar_ne_dot _ (Nat.mod_lt _ (by norm_num))
  have hd2 : Nat.digitChar (cents n % 10) ≠ '.' :=
    digitChar_ne_dot _ (Nat.mod_lt _ (by norm_num))
  unfold fracDigits
  rw [toFixed2_data n h]
  rw [if_pos (by simp)]
  simp [List.takeWhile_cons, hd1, hd2]

/-- Counterexample to C6 as stated: `10 ^ 21` is a finite positive number,
so the normalizer accepts it, but JS `toFixed(2)` renders any argument of
`10 ^ 21` or more with `Number::toString` — the result is the exponential
string `1e+21`, which has no dot and so not two fractional digits. -/
theorem toAmountString_large_counterexample :
    toAmountString (some 1000000000000000000000) = some "1e+21" ∧
    fracDigits "1e+21" = none ∧ (none : Option ℕ) ≠ some 2 := by decide

/-- C6 amended: the amount normalizer rejects exactly the non-finite,
non-positive or non-numeric inputs (a non-numeric JS value coerces to
`NaN`, which is the non-finite `none` here), and every accepted input
below `10 ^ 21` produces a string with exactly two fractional digits;
from `10 ^ 21` on, `toFixed` falls back to exponential `Number::toString`
notation and the two-digit guarantee fails, as the counterexample
shows. -/
theorem toAmountString_spec :
    ∀ v : Option ℚ,
      ((toAmountString v).isSome ↔ ∃ q, v = some q ∧ 0 < q) ∧
      ∀ q s, v = some q → q < 1000000000000000000000 → toAmountString v = some s →
        fracDigits s = some 2 := by
  intro v
  constructor
  · cases v with
    | none => simp [toAmountString]
    | some n =>
      by_cases h : n ≤ 0
      · simp [toAmountString, h]
      · simp [toAmountString, h]
        exact lt_of_not_le h
  · intro q s hv hq hs
    subst hv
    by_cases h : q ≤ 0
    · simp [toAmountString, h] at hs
    · simp [toAmountString, h] at hs
      exact hs ▸ fracDigits_toFixed2 q hq

/-- Witness for the amended C6: amount 19 is accepted and formats to
`19.00`, which has exactly two fractional digits. -/
theorem toAmountString_spec_witness :
    toAmountString (some 19) = some "19.00" ∧ fracDigits "19.00" = some 2 :=
  ⟨by decide, (toAmountString_spec (some 19)).2 19 "19.00" rfl (by decide) (by decide)⟩

/-- C4: every successful point or pix payment-attempt creation on an
existing order leaves that order with status `awaiting_payment` — no
assumption is made on the status the order had before — and appends
exactly one new payment-attempt row. -/
theorem attempt_creation_sets_awaiting :
    (∀ (st : DBState) (oid : ℕ) (tid : Option String) (gw : Option MPPointResp)
        (st' : DBState) (a b c : String),
      paymentsPoint st oid tid gw = (st', PointResult.ok a b c) →
        orderStatus st' oid = some "awaiting_payment" ∧
        st'.payments.length = st.payments.length + 1) ∧
    (∀ (st : DBState) (oid : ℕ) (gw : Option MPPixResp) (st' : DBState) (a b : String),
      paymentsPix st oid gw = (st', PixResult.ok a b) →
        orderStatus st' oid = some "awaiting_payment" ∧
        st'.payments.length = st.payments.length + 1) := by
  constructor
  · intro st oid tid gw st' a b c h
    unfold paymentsPoint at h
    by_cases h0 : oid = 0 ∨ ¬ jsTruthyStr tid
    · rw [if_pos h0] at h
      simp at h
    · rw [if_neg h0] at h
      cases hfind : findOrder st oid with
      | none =>
        rw [hfind] at h
        simp at h
      | some ord =>
        rw [hfind] at h
        dsimp only at h
        cases hta : toAmountString (some ord.amount) with
        | none =>
          rw [hta] at h
          simp at h
        | some amt =>
          rw [hta] at h
          dsimp only at h
          cases gw with
          | none => simp at h
          | some r =>
            dsimp only at h
            simp only [Prod.mk.injEq] at h
            obtain ⟨hst, _⟩ := h
            subst hst
            refine ⟨?_, ?_⟩
            · apply orderStatus_setOrderStatus_self
              exact ⟨ord, List.mem_of_find?_eq_some hfind,
                by simpa using List.find?_some hfind⟩
            · rw [payments_setOrderStatus]
              simp
  · intro st oid gw st' a b h
    unfold paymentsPix at h
    by_cases h0 : oid = 0
    · rw [if_pos h0] at h
      simp at h
    · rw [if_neg h0] at h
      cases hfind : findOrder st oid with
      | none =>
        rw [hfind] at h
        simp at h
      | some ord =>
        rw [hfind] at h
        dsimp only at h
        cases gw with
        | none => simp at h
        | some r =>
          dsimp only at h
          simp only [Prod.mk.injEq] at h
          obtain ⟨hst, _⟩ := h
          subst hst
          refine ⟨?_, ?_⟩
          · apply orderStatus_setOrderStatus_self
            exact ⟨ord, List.mem_of_find?_eq_some hfind,
              by simpa using List.find?_some hfind⟩
          · rw [payments_setOrderStatus]
            simp

/-- Witness for C4: a point attempt on an order that is already `paid`
succeeds, resets it to `awaiting_payment`, and appends one row. -/
theorem attempt_creation_sets_awaiting_witness :
    orderStatus (paymentsPoint stPaid 1 (some "T1") (some pointResp)).1 1 =
      some "awaiting_payment" ∧
    (paymentsPoint stPaid 1 (some "T1") (some pointResp)).1.payments.length =
      stPaid.payments.length + 1 :=
  attempt_creation_sets_awaiting.1 stPaid 1 (some "T1") (some pointResp)
    (paymentsPoint stPaid 1 (some "T1") (some pointResp)).1
    "MPO-1" "MPP-1" "created" (by decide)

/-- C3: a webhook payment event that passes the secret check and resolves
to a payment id, whose fetched status is case-insensitively `approved` and
whose fetched external reference matches an existing order (with a truthy
id), sets that order to `paid`; replaying the identical event a second
time returns the same state and the same 200 acknowledgment — the replay
only rewrites the same attempt status and order status. -/
theorem webhook_approved_sets_paid_idempotent
    (cfg : Option String) (st : DBState) (req : WebhookReq) (payment : MPPaymentDetail)
    (did : String) (ord : Order)
    (hsec : ¬(jsTruthyStr cfg ∧ req.headerSecret ≠ cfg))
    (hdid : strOr req.dataId req.topLevelId = some did) (hne : did ≠ "")
    (htype : strOr req.bodyType req.bodyTopic = some "payment" ∨
      strOr req.bodyType req.bodyTopic = some "payments")
    (happ : jsToLower (strOrDefault payment.status "updated") = "approved")
    (href : jsTruthyStr payment.external_reference = true)
    (hord : findOrderByRef st (payment.external_reference.getD "") = some ord)
    (hz : ord.id ≠ 0) :
    orderStatus (webhooksMercadopago cfg st req (some payment)).1 ord.id = some "paid" ∧
    webhooksMercadopago cfg (webhooksMercadopago cfg st req (some payment)).1 req
      (some payment) = ((webhooksMercadopago cfg st req (some payment)).1, 200) := by
  have hfind1 : findOrderByRef (updatePaymentsByMpOrderId st did
      (strOrDefault payment.status "updated") payment.raw)
      (payment.external_reference.getD "") = some ord := by
    rw [findOrderByRef_updatePayments]
    exact hord
  have hstep : webhookPaymentStep st payment did =
      setOrderStatus (updatePaymentsByMpOrderId st did
        (strOrDefault payment.status "updated") payment.raw) ord.id "paid" := by
    simp only [webhookPaymentStep, hfind1]
    rw [if_pos ⟨happ, href⟩, if_pos hz]
  have hrun : (webhooksMercadopago cfg st req (some payment)).1 =
      setOrderStatus (updatePaymentsByMpOrderId st did
        (strOrDefault payment.status "updated") payment.raw) ord.id "paid" := by
    show (if jsTruthyStr cfg ∧ req.headerSecret ≠ cfg then st
      else webhookBody st req (some payment)) = _
    rw [if_neg hsec, webhookBody_payment st req payment did hdid hne htype, hstep]
  have hst1R : updatePaymentsByMpOrderId
      (setOrderStatus (updatePaymentsByMpOrderId st did
        (strOrDefault payment.status "updated") payment.raw) ord.id "paid")
      did (strOrDefault payment.status "updated") payment.raw =
      setOrderStatus (updatePaymentsByMpOrderId st did
        (strOrDefault payment.status "updated") payment.raw) ord.id "paid" := by
    rw [updatePayments_setOrderStatus_comm, updatePayments_idem]
  have hfindR : findOrderByRef
      (setOrderStatus (updatePaymentsByMpOrderId st did
        (strOrDefault payment.status "updated") payment.raw) ord.id "paid")
      (payment.external_reference.getD "") = some { ord with status := "paid" } := by
    rw [findOrderByRef_setOrderStatus, hfind1]
    simp
  have hstepR : webhookPaymentStep
      (setOrderStatus (updatePaymentsByMpOrderId st did
        (strOrDefault payment.status "updated") payment.raw) ord.id "paid")
      payment did =
      setOrderStatus (updatePaymentsByMpOrderId st did
        (strOrDefault payment.status "updated") payment.raw) ord.id "paid" := by
    simp only [webhookPaymentStep, hst1R, hfindR]
    rw [if_pos ⟨happ, href⟩]
    rw [if_pos (by simpa using hz)]
    exact setOrderStatus_idem _ ord.id "paid"
  constructor
  · rw [hrun]
    apply orderStatus_setOrderStatus_self
    exact ⟨ord, List.mem_of_find?_eq_some hord, rfl⟩
  · rw [hrun]
    unfold webhooksMercadopago
    rw [if_neg hsec, webhookBody_payment _ req payment did hdid hne htype, hstepR]

/-- Witness for C3: the approved webhook for `PAY-1` marks order `ORD-1`
of `stPaid` as paid and a second delivery of the same event is a no-op
returning the same state and 200. -/
theorem webhook_approved_sets_paid_idempotent_witness :
    orderStatus (webhooksMercadopago none stPaid payReq (some approvedFetch)).1 1 =
      some "paid" ∧
    webhooksMercadopago none (webhooksMercadopago none stPaid payReq (some approvedFetch)).1
      payReq (some approvedFetch) =
      ((webhooksMercadopago none stPaid payReq (some approvedFetch)).1, 200) :=
  webhook_approved_sets_paid_idempotent none stPaid payReq approvedFetch "PAY-1"
    { id := 1, external_ref := "ORD-1", status := "paid", amount := 19 }
    (by decide) (by decide) (by decide) (by decide) (by decide) (by decide)
    (by decide) (by decide)

theorem ordersPost_orders_cases (st : DBState) (r : JSVal) (a : Option (Option ℚ)) :
    (ordersPost st r a).1.orders = st.orders ∨
    ∃ o : Order, (ordersPost st r a).1.orders = st.orders ++ [o] := by
  unfold ordersPost
  cases h : safeExternalRef r with
  | none => left; rfl
  | some ref =>
    cases a with
    | none => left; rfl
    | some amt =>
      cases amt with
      | none => left; rfl
      | some q =>
        dsimp only
        by_cases hq : q ≤ 0
        · rw [if_pos hq]
          left; rfl
        · rw [if_neg hq]
          by_cases hany : st.orders.any (fun o => o.external_ref = ref) = true
          · rw [if_pos hany]
            left; rfl
          · rw [if_neg hany]
            right
            exact ⟨_, rfl⟩

theorem paymentsPoint_state_cases (st : DBState) (oid : ℕ) (tid : Option String)
    (gw : Option MPPointResp) :
    (paymentsPoint st oid tid gw).1 = st ∨
    ∃ st1 : DBState, st1.orders = st.orders ∧
      (paymentsPoint st oid tid gw).1 = setOrderStatus st1 oid "awaiting_payment" := by
  unfold paymentsPoint
  by_cases h0 : oid = 0 ∨ ¬ jsTruthyStr tid
  · rw [if_pos h0]
    left; rfl
  · rw [if_neg h0]
    cases hfind : findOrder st oid with
    | none => left; rfl
    | some ord =>
      dsimp only
      cases hta : toAmountString (some ord.amount) with
      | none => left; rfl
      | some amt =>
        dsimp only
        cases gw with
        | none => left; rfl
        | some resp =>
          right
          refine ⟨_, ?_, rfl⟩
          rfl

theorem paymentsPix_state_cases (st : DBState) (oid : ℕ) (gw : Option MPPixResp) :
    (paymentsPix st oid gw).1 = st ∨
    ∃ st1 : DBState, st1.orders = st.orders ∧
      (paymentsPix st oid gw).1 = setOrderStatus st1 oid "awaiting_payment" := by
  unfold paymentsPix
  by_cases h0 : oid = 0
  · rw [if_pos h0]
    left; rfl
  · rw [if_neg h0]
    cases hfind : findOrder st oid with
    | none => left; rfl
    | some ord =>
      dsimp only
      cases gw with
      | none => left; rfl
      | some resp =>
        right
        refine ⟨_, ?_, rfl⟩
        rfl

theorem webhookPaymentStep_payments (st : DBState) (payment : MPPaymentDetail) (did : String) :
    (webhookPaymentStep st payment did).payments =
      st.payments.map (fun p =>
        if p.mp_order_id = did then
          { p with status := strOrDefault payment.status "updated", raw_json := payment.raw }
        else p) := by
  unfold webhookPaymentStep
  by_cases hap : jsToLower (strOrDefault payment.status "updated") = "approved" ∧
      jsTruthyStr payment.external_reference = true
  · rw [if_pos hap]
    cases hfind : findOrderByRef (updatePaymentsByMpOrderId st did
        (strOrDefault payment.status "updated") payment.raw)
        (payment.external_reference.getD "") with
    | none => rfl
    | some ord =>
      dsimp only
      by_cases hz : ord.id ≠ 0
      · rw [if_pos hz, payments_setOrderStatus]
        rfl
      · rw [if_neg hz]
        rfl
  · rw [if_neg hap]
    rfl

/-- Counterexample to C1 as stated: starting from the empty store, create
order `ORD-1`, let an approved webhook advance it to `paid`, then create a
point payment attempt on it — an operation of the core — and its status
regresses from `paid` to `awaiting_payment`. -/
theorem paid_regression_counterexample :
    orderStatus (runOps none initialState
      [Op.createOrder (JSVal.str "ORD-1") (some (some 19)),
       Op.webhook payReq (some approvedFetch)]) 1 = some "paid" ∧
    orderStatus (runOps none initialState
      [Op.createOrder (JSVal.str "ORD-1") (some (some 19)),
       Op.webhook payReq (some approvedFetch),
       Op.point 1 (some "T1") (some pointResp)]) 1 = some "awaiting_payment" ∧
    (some "awaiting_payment" : Option String) ≠ some "paid" := by decide

/-- C1 amended: a `paid` order is never moved back to `created` by any
operation, and neither webhook reconciliation nor order creation ever
changes a `paid` order at all; the only regression is the one the
counterexample exhibits — point or pix attempt creation on a `paid` order
moves it to `awaiting_payment`. -/
theorem paid_order_transitions :
    (∀ (cfg : Option String) (st : DBState) (req : WebhookReq)
        (fetch : Option MPPaymentDetail) (oid : ℕ),
      orderStatus st oid = some "paid" →
        orderStatus (step cfg st (Op.webhook req fetch)) oid = some "paid") ∧
    (∀ (cfg : Option String) (st : DBState) (r : JSVal) (a : Option (Option ℚ)) (oid : ℕ),
      orderStatus st oid = some "paid" →
        orderStatus (step cfg st (Op.createOrder r a)) oid = some "paid") ∧
    (∀ (cfg : Option String) (st : DBState) (op : Op) (oid : ℕ),
      orderStatus st oid = some "paid" →
        orderStatus (step cfg st op) oid = some "paid" ∨
        orderStatus (step cfg st op) oid = some "awaiting_payment") := by
  have hweb : ∀ (cfg : Option String) (st : DBState) (req : WebhookReq)
      (fetch : Option MPPaymentDetail) (oid : ℕ),
      orderStatus st oid = some "paid" →
      orderStatus (step cfg st (Op.webhook req fetch)) oid = some "paid" := by
    intro cfg st req fetch oid h
    show orderStatus (webhooksMercadopago cfg st req fetch).1 oid = some "paid"
    rcases webhooksMercadopago_state_cases cfg st req fetch with hc | ⟨payment, did, _, hc⟩
    · rw [hc]
      exact h
    · rw [hc]
      exact webhookPaymentStep_preserves_paid st payment did oid h
  have hcreate : ∀ (cfg : Option String) (st : DBState) (r : JSVal)
      (a : Option (Option ℚ)) (oid : ℕ),
      orderStatus st oid = some "paid" →
      orderStatus (step cfg st (Op.createOrder r a)) oid = some "paid" := by
    intro cfg st r a oid h
    show orderStatus (ordersPost st r a).1 oid = some "paid"
    rcases ordersPost_orders_cases st r a with hc | ⟨o, hc⟩
    · unfold orderStatus findOrder at h ⊢
      rw [hc]
      exact h
    · unfold orderStatus findOrder at h ⊢
      rw [hc, List.find?_append]
      obtain ⟨o0, ho0, hos⟩ := Option.map_eq_some'.mp h
      rw [ho0]
      simp [hos]
  refine ⟨hweb, hcreate, ?_⟩
  intro cfg st op oid h
  cases op with
  | webhook req fetch => exact Or.inl (hweb cfg st req fetch oid h)
  | createOrder r a => exact Or.inl (hcreate cfg st r a oid h)
  | point oid2 tid gw =>
    show orderStatus (paymentsPoint st oid2 tid gw).1 oid = some "paid" ∨
      orderStatus (paymentsPoint st oid2 tid gw).1 oid = some "awaiting_payment"
    rcases paymentsPoint_state_cases st oid2 tid gw with hc | ⟨st1, ho, hc⟩
    · rw [hc]
      exact Or.inl h
    · have h1 : orderStatus st1 oid = some "paid" := by
        unfold orderStatus findOrder at h ⊢
        rw [ho]
        exact h
      rw [hc]
      exact orderStatus_setOrderStatus_or st1 oid2 oid "awaiting_payment" "paid" h1
  | pix oid2 gw =>
    show orderStatus (paymentsPix st oid2 gw).1 oid = some "paid" ∨
      orderStatus (paymentsPix st oid2 gw).1 oid = some "awaiting_payment"
    rcases paymentsPix_state_cases st oid2 gw with hc | ⟨st1, ho, hc⟩
    · rw [hc]
      exact Or.inl h
    · have h1 : orderStatus st1 oid = some "paid" := by
        unfold orderStatus findOrder at h ⊢
        rw [ho]
        exact h
      rw [hc]
      exact orderStatus_setOrderStatus_or st1 oid2 oid "awaiting_payment" "paid" h1

/-- Witness for the amended C1: a webhook delivery whose fetch reports a
cancelled payment leaves the paid order `ORD-1` paid. -/
theorem paid_order_transitions_witness :
    orderStatus (step none stPaid (Op.webhook payReqP1 (some cancelledFetch))) 1 =
      some "paid" :=
  paid_order_transitions.1 none stPaid payReqP1 (some cancelledFetch) 1 (by decide)

/-- Counterexample to C2 as stated: the store holds one point attempt with
`mp_order_id = "O1"` and `mp_payment_id = "P1"`; a webhook event for
payment `P1` whose fetch reports `cancelled` leaves that attempt — the one
whose provider payment id equals the event's payment identifier — with its
old status and snapshot, because the SQL update matches on `mp_order_id`,
not `mp_payment_id`. -/
theorem payment_id_correlation_counterexample :
    ((webhooksMercadopago none stPointAttempt payReqP1 (some cancelledFetch)).1.payments.map
      (fun p => (p.mp_payment_id, p.status, p.raw_json))) = [("P1", "created", "RAW0")] ∧
    ("created" : String) ≠ "cancelled" := by decide

/-- C2 amended: for every webhook payment event that is processed, the
correlation key is the attempt's provider order id: the rows updated (to
the fetched status and snapshot) are exactly those whose `mp_order_id`
equals the event's payment identifier, and all other rows are unchanged. -/
theorem webhook_correlation_key (cfg : Option String) (st : DBState) (req : WebhookReq)
    (payment : MPPaymentDetail) (did : String)
    (hsec : ¬(jsTruthyStr cfg ∧ req.headerSecret ≠ cfg))
    (hdid : strOr req.dataId req.topLevelId = some did) (hne : did ≠ "")
    (htype : strOr req.bodyType req.bodyTopic = some "payment" ∨
      strOr req.bodyType req.bodyTopic = some "payments") :
    (webhooksMercadopago cfg st req (some payment)).1.payments =
      st.payments.map (fun p =>
        if p.mp_order_id = did then
          { p with status := strOrDefault payment.status "updated", raw_json := payment.raw }
        else p) := by
  have hrun : (webhooksMercadopago cfg st req (some payment)).1 =
      webhookPaymentStep st payment did := by
    show (if jsTruthyStr cfg ∧ req.headerSecret ≠ cfg then st
      else webhookBody st req (some payment)) = _
    rw [if_neg hsec, webhookBody_payment st req payment did hdid hne htype]
  rw [hrun]
  exact webhookPaymentStep_payments st payment did

/-- Witness for the amended C2: processing the cancelled-payment event for
`P1` against `stPointAttempt` rewrites exactly the rows with
`mp_order_id = "P1"` (here none). -/
theorem webhook_correlation_key_witness :
    (webhooksMercadopago none stPointAttempt payReqP1 (some cancelledFetch)).1.payments =
      stPointAttempt.payments.map (fun p =>
        if p.mp_order_id = "P1" then
          { p with status := strOrDefault cancelledFetch.status "updated",
                   raw_json := cancelledFetch.raw }
        else p) :=
  webhook_correlation_key none stPointAttempt payReqP1 cancelledFetch "P1"
    (by decide) (by decide) (by decide) (by decide)

/-- Counterexample to C10 as stated: when the provider response to a point
order creation carries the same identifier as order id and as first
payment id, the stored point attempt holds equal values in `mp_order_id`
and `mp_payment_id` — point attempts do not always store distinct values
in the two columns. -/
theorem point_attempt_equal_ids_counterexample :
    ((paymentsPoint stPaid 1 (some "T1") (some pointRespSameIds)).1.payments.map
      (fun p => (p.provider, p.mp_order_id, p.mp_payment_id))) =
      [("mp_point_v1_orders", "X", "X")] := by decide

/-- C10 amended: every pix attempt stores the provider payment id in both
the `mp_order_id` and `mp_payment_id` columns, and this equality is what
lets the webhook update — which matches on `mp_order_id` — find a pix
attempt by the event's payment id; point attempts store the provider
order id and the first payment id of the response, which are taken from
different fields but need not differ. -/
theorem pix_attempt_id_equality :
    (∀ (st : DBState) (oid : ℕ) (gw : Option MPPixResp) (st' : DBState) (a b : String),
      paymentsPix st oid gw = (st', PixResult.ok a b) →
        ∃ att : PaymentAttempt, st'.payments = st.payments ++ [att] ∧
          att.mp_order_id = att.mp_payment_id) ∧
    (∀ (cfg : Option String) (st : DBState) (req : WebhookReq) (payment : MPPaymentDetail)
        (did : String) (p : PaymentAttempt),
      ¬(jsTruthyStr cfg ∧ req.headerSecret ≠ cfg) →
      strOr req.dataId req.topLevelId = some did → did ≠ "" →
      (strOr req.bodyType req.bodyTopic = some "payment" ∨
        strOr req.bodyType req.bodyTopic = some "payments") →
      p ∈ st.payments → p.mp_order_id = p.mp_payment_id → p.mp_payment_id = did →
        { p with status := strOrDefault payment.status "updated", raw_json := payment.raw } ∈
          (webhooksMercadopago cfg st req (some payment)).1.payments) := by
  constructor
  · intro st oid gw st' a b h
    unfold paymentsPix at h
    by_cases h0 : oid = 0
    · rw [if_pos h0] at h
      simp at h
    · rw [if_neg h0] at h
      cases hfind : findOrder st oid with
      | none =>
        rw [hfind] at h
        simp at h
      | some ord =>
        rw [hfind] at h
        dsimp only at h
        cases gw with
        | none => simp at h
        | some resp =>
          dsimp only at h
          simp only [Prod.mk.injEq] at h
          obtain ⟨hst, _⟩ := h
          subst hst
          refine ⟨{ id := st.nextPaymentId, order_id := oid, provider := "pix",
                    mp_order_id := strOrDefault resp.id "",
                    mp_payment_id := strOrDefault resp.id "",
                    status := strOrDefault resp.status "created",
                    terminal_id := none, raw_json := resp.raw }, ?_, rfl⟩
          rw [payments_setOrderStatus]
  · intro cfg st req payment did p hsec hdid hne htype hp hpo hpd
    have hrun : (webhooksMercadopago cfg st req (some payment)).1 =
        webhookPaymentStep st payment did := by
      show (if jsTruthyStr cfg ∧ req.headerSecret ≠ cfg then st
        else webhookBody st req (some payment)) = _
      rw [if_neg hsec, webhookBody_payment st req payment did hdid hne htype]
    rw [hrun, webhookPaymentStep_payments st payment did]
    have heq : (fun q : PaymentAttempt =>
        if q.mp_order_id = did then
          { q with status := strOrDefault payment.status "updated", raw_json := payment.raw }
        else q) p =
        { p with status := strOrDefault payment.status "updated", raw_json := payment.raw } := by
      dsimp only
      rw [if_pos (show p.mp_order_id = did by rw [hpo, hpd])]
    exact heq ▸ List.mem_map_of_mem _ hp

/-- Witness for the amended C10: a successful pix creation on `stPaid`
appends one attempt whose two provider id columns are equal. -/
theorem pix_attempt_id_equality_witness :
    ∃ att : PaymentAttempt,
      (paymentsPix stPaid 1 (some pixResp)).1.payments = stPaid.payments ++ [att] ∧
      att.mp_order_id = att.mp_payment_id :=
  pix_attempt_id_equality.1 stPaid 1 (some pixResp)
    (paymentsPix stPaid 1 (some pixResp)).1 "PAY-1" "pending" (by decide)

end FluxTotem
